import Mathlib

/-!
Verification of the android_gui_cookbook controller (EasyR1 repository).

This file shallowly embeds the core control logic of the repository:
  * `parse_vlm_response` and `check_click_success` from
    `examples/android_gui_cookbook/play_agent.py` (the Response Parser),
  * the per-round tap/verify retry loops of `play_agent.py::play_one_round`
    and `collect_data.py::play_one_round` (the Round Controller),
  * the episode loops of `play_agent.py::run_game` and
    `collect_data.py::collect_one_episode` (the Episode Controller).

External effects (device taps, screenshots, VLM queries, sleeps, file I/O)
are modelled as oracles: scripted inputs giving the result of each external
call.  Python's regex classes `\d` and `\s` are modelled over ASCII digits
and ASCII whitespace (Python additionally accepts other Unicode decimal
digits and spaces); every value reasoned about below is ASCII or a literal
Chinese character, on which the two semantics agree.  `re.IGNORECASE`
is modelled by comparing characters after `Char.toLower`.
-/

namespace AndroidGuiCookbook

/-! ### Character classes and primitive matchers -/

/-- ASCII whitespace, the modelled fragment of Python's regex class `\s`. -/
def isSpaceCh (c : Char) : Bool :=
  c = ' ' || c = '\t' || c = '\n' || c = '\x0d' || c = '\x0b' || c = '\x0c'

/-- Split a maximal (possibly empty) run of ASCII digits off the front,
returning the run and the rest.  Models a greedy `\d*` / `\d+` step. -/
def takeDigits : List Char → List Char × List Char
  | [] => ([], [])
  | c :: t =>
    if c.isDigit then
      let (ds, r) := takeDigits t
      (c :: ds, r)
    else ([], c :: t)

/-- Numeric value of a digit run, as Python's `int` on a `\d+` capture. -/
def digitsToNat (ds : List Char) : Nat :=
  ds.foldl (fun n c => n * 10 + (c.toNat - '0'.toNat)) 0

/-- Match a nonempty maximal digit run (`(\d+)` followed by a non-digit
requirement), returning its value and the rest of the input. -/
def matchDigits1 (s : List Char) : Option (Nat × List Char) :=
  match takeDigits s with
  | ([], _) => none
  | (ds, r) => some (digitsToNat ds, r)

/-- Drop a maximal run of whitespace: a greedy `\s*` whose continuation
cannot start with whitespace (true for every use below). -/
def dropSpaces : List Char → List Char
  | [] => []
  | c :: t => if isSpaceCh c then dropSpaces t else c :: t

/-- Case-insensitive literal match (all patterns in the source are compiled
with `re.IGNORECASE`); returns the rest of the input on success. -/
def litCI : List Char → List Char → Option (List Char)
  | [], s => some s
  | _ :: _, [] => none
  | c :: p, d :: s => if c.toLower = d.toLower then litCI p s else none

/-- Match the character class `[:：]`. -/
def matchColon : List Char → Option (List Char)
  | [] => none
  | c :: t => if c = ':' || c = '：' then some t else none

/-- Optional `的?` before the mandatory `索引`: the regex backtracks, but
since `的` ≠ `索` this is equivalent to consuming a leading `的` if present. -/
def matchOptDe : List Char → List Char
  | '的' :: t => t
  | s => s

/-- Match the character class `[abc]` under IGNORECASE, one character. -/
def matchLetter : List Char → Option Char
  | [] => none
  | c :: _ =>
    if c = 'a' || c = 'b' || c = 'c' || c = 'A' || c = 'B' || c = 'C' then some c
    else none

/-- Source computation `ord(match_str.lower()) - ord("a")`: the alphabet position of a letter
label, as computed in `parse_vlm_response`. -/
def letterIndex (c : Char) : Nat := c.toLower.toNat - 'a'.toNat

/-- Leftmost match: try the anchored matcher at every successive start
position.  `re.findall(...)[0]` is the capture of the leftmost match. -/
def scanFirst (m : List Char → Option α) : List Char → Option α
  | [] => m []
  | c :: t =>
    match m (c :: t) with
    | some r => some r
    | none => scanFirst m t

/-! ### The anchored pattern matchers of `parse_vlm_response`

Each matcher models one regex of the source, anchored at the current
position, returning the first capturing group. -/

/-- Strategy 1: `<action>select\((\d+)\)</action>` (IGNORECASE). -/
def matchS1 (s : List Char) : Option Nat := do
  let s ← litCI "<action>select(".data s
  let (n, s) ← matchDigits1 s
  let _ ← litCI ")</action>".data s
  pure n

/-- Pattern `选择的?索引[:：]\s*(\d+)`. -/
def matchP1 (s : List Char) : Option Nat := do
  let s ← litCI "选择".data s
  let s ← litCI "索引".data (matchOptDe s)
  let s ← matchColon s
  let (n, _) ← matchDigits1 (dropSpaces s)
  pure n

/-- Pattern `索引[:：]\s*(\d+)`. -/
def matchP2 (s : List Char) : Option Nat := do
  let s ← litCI "索引".data s
  let s ← matchColon s
  let (n, _) ← matchDigits1 (dropSpaces s)
  pure n

/-- Pattern `select\((\d+)\)` (IGNORECASE). -/
def matchP3 (s : List Char) : Option Nat := do
  let s ← litCI "select(".data s
  let (n, s) ← matchDigits1 s
  let _ ← litCI ")".data s
  pure n

/-- Pattern `选择\s*(\d+)`. -/
def matchP4 (s : List Char) : Option Nat := do
  let s ← litCI "选择".data s
  let (n, _) ← matchDigits1 (dropSpaces s)
  pure n

/-- Pattern `第\s*(\d+)\s*个`. -/
def matchP5 (s : List Char) : Option Nat := do
  let s ← litCI "第".data s
  let (n, s) ← matchDigits1 (dropSpaces s)
  let _ ← litCI "个".data (dropSpaces s)
  pure n

/-- Pattern `answer[:：]\s*(\d+)` (IGNORECASE). -/
def matchP6 (s : List Char) : Option Nat := do
  let s ← litCI "answer".data s
  let s ← matchColon s
  let (n, _) ← matchDigits1 (dropSpaces s)
  pure n

/-- Pattern `选项\s*([abc])` (IGNORECASE), capturing the letter. -/
def matchP7letter (s : List Char) : Option Char := do
  let s ← litCI "选项".data s
  matchLetter (dropSpaces s)

/-- Pattern `选项\s*([abc])` mapped to an index as the source does:
`index = ord(match_str.lower()) - ord("a")`. -/
def matchP7 (s : List Char) : Option Nat :=
  (matchP7letter s).map letterIndex

/-- The ordered `index_patterns` list of strategy 2 of `parse_vlm_response`,
each pattern reduced to the value of the first match's capture. -/
def strat2 : List (List Char → Option Nat) :=
  [matchP1, matchP2, matchP3, matchP4, matchP5, matchP6, matchP7]

/-- Strategy-2 loop: for each pattern in order, if it has a match take the
first match's value; return it when it lies in `0..2`, otherwise move on to
the next pattern. -/
def firstValid (s : List Char) : List (List Char → Option Nat) → Option Nat
  | [] => none
  | m :: rest =>
    match scanFirst m s with
    | some n => if n ≤ 2 then some n else firstValid s rest
    | none => firstValid s rest

/-- Model of `GameAgent.parse_vlm_response` (play_agent.py): strategy 1 extracts the
first `<action>select(N)</action>` directive and returns its value when in
`0..2`; otherwise the ordered strategy-2 patterns are tried; if nothing
yields an in-range value the parser returns no decision (`None`). -/
def parse_vlm_response (response : String) : Option Nat :=
  match scanFirst matchS1 response.data with
  | some n => if n ≤ 2 then some n else firstValid response.data strat2
  | none => firstValid response.data strat2

/-! ### Substring containment and `check_click_success` -/

/-- Predicate `hasPrefixCh p s`: `p` is a prefix of `s` (character lists). -/
def hasPrefixCh : List Char → List Char → Bool
  | [], _ => true
  | _ :: _, [] => false
  | c :: p, d :: s => c = d && hasPrefixCh p s

/-- Predicate `hasSubCh p s`: `p` occurs contiguously somewhere in `s`, Python's
`p in s` on strings. -/
def hasSubCh (p : List Char) : List Char → Bool
  | [] => p.isEmpty
  | c :: t => hasPrefixCh p (c :: t) || hasSubCh p t

/-- Python's `str.lower()` on the characters of the reply (ASCII-cased
characters are lowered; the Chinese characters involved are unaffected). -/
def lowerCh (l : List Char) : List Char := l.map Char.toLower

/-- Model of `GameAgent.check_click_success` (play_agent.py), as a function of the
model's reply text: the click is classified successful iff the reply
contains `是`, or its lowercasing contains `yes`, or it contains `成功`,
or it contains `改变`. -/
def check_click_success (response : String) : Bool :=
  hasSubCh "是".data response.data || hasSubCh "yes".data (lowerCh response.data)
    || hasSubCh "成功".data response.data || hasSubCh "改变".data response.data

/-! ### Round Controller, decision-making variant (`play_agent.py`)

`GameAgent.play_one_round` interacts with the device and the model through
fallible external calls.  A `Script` fixes the outcome of each call of one
round attempt:
  * `captureFails i` — whether the `i`-th screenshot capture of the round
    raises (`ADBController.capture_screenshot` raises `RuntimeError` on
    failure, and `play_one_round` does not catch it).  Capture `0` is the
    initial round screenshot; capture `i+1` is the verification screenshot
    of tap attempt `i`.
  * `decision` — the result of `make_decision` (the parse of the model's
    free text; `parse_vlm_response` is modelled above).
  * `tapOk i` — whether the `i`-th card tap (`ADBController.tap`, returning
    a success boolean) succeeds.
  * `verifyOk i` — the result of `check_click_success` on the verification
    screenshot of tap attempt `i` (a model query; external).
  * `advanceTapOk` — whether the tap on the "next round" button succeeds.
-/

/-- Scripted outcomes of the external calls of one `play_one_round` attempt
in the decision-making variant. -/
structure Script where
  captureFails : Nat → Bool
  decision : Option Nat
  tapOk : Nat → Bool
  verifyOk : Nat → Bool
  advanceTapOk : Bool

/-- Result of the `for retry in range(max_retry)` tap loop of
`play_agent.py::play_one_round`:  a failed tap returns `False` from the
round at once (`tapFailed`, recording the taps issued); exhausting the
budget without a positive verification leaves `click_success` false
(`exhausted`); a positive verification breaks out (`verified`). -/
inductive ClickResult where
  | tapFailed (taps : Nat)
  | exhausted (taps : Nat)
  | verified (taps : Nat)
deriving DecidableEq

/-- The tap/verify retry loop of `play_agent.py::play_one_round`, started
at `clickLoop s 0 3` (`max_retry = 3`).  `i` counts taps already issued,
`fuel` the remaining loop iterations.  A verification screenshot that
fails to capture raises out of the loop (modelled as `Except.error`). -/
def clickLoop (s : Script) : Nat → Nat → Except String ClickResult
  | i, 0 => .ok (.exhausted i)
  | i, fuel + 1 =>
    if s.tapOk i then
      if s.captureFails (i + 1) then .error "截图失败"
      else if s.verifyOk i then .ok (.verified (i + 1))
      else clickLoop s (i + 1) fuel
    else .ok (.tapFailed (i + 1))

/-- Model of `GameAgent.play_one_round` (play_agent.py): returns `Except.error` when
an uncaught capture exception escapes the round, otherwise
`(completed?, cardTapsIssued)`.  Capture the screen (a failure raises);
parse a decision (`None` fails the round); run the tap/verify loop; on a
verified click, tap the advance button (a failed tap fails the round). -/
def play_one_round_agent (s : Script) : Except String (Bool × Nat) :=
  if s.captureFails 0 then .error "截图失败"
  else
    match s.decision with
    | none => .ok (false, 0)
    | some _ =>
      match clickLoop s 0 3 with
      | .error e => .error e
      | .ok (.tapFailed n) => .ok (false, n)
      | .ok (.exhausted n) => .ok (false, n)
      | .ok (.verified n) =>
        if s.advanceTapOk then .ok (true, n) else .ok (false, n)

/-! ### Episode Controller, decision-making variant (`play_agent.py`) -/

/-- The `while completed_rounds < 10 and total_attempts < max_total_attempts`
loop of `GameAgent.run_game`, with `max_total_attempts = 20`.  `rounds a` is
the outcome of the round attempted with `total_attempts = a + 1`: `Except.ok`
of its success boolean, or `Except.error` when an exception escapes
`play_one_round` (which `run_game` does not catch).  The loop is run as
`runGameLoop rounds 20 0 0`; since each iteration increments the attempt
count, the fuel never truncates the loop, which the exit condition of the
episode-loop invariant proved below makes precise. -/
def runGameLoop (rounds : Nat → Except String Bool) :
    Nat → Nat → Nat → Except String (Nat × Nat)
  | 0, completed, attempts => .ok (completed, attempts)
  | fuel + 1, completed, attempts =>
    if completed < 10 ∧ attempts < 20 then
      match rounds attempts with
      | .error e => .error e
      | .ok true => runGameLoop rounds fuel (completed + 1) (attempts + 1)
      | .ok false => runGameLoop rounds fuel completed (attempts + 1)
    else .ok (completed, attempts)

/-- Model of the `GameAgent.run_game` round loop, each attempt's external calls scripted
by `scripts`: returns the final `(completed_rounds, total_attempts)`, or the
exception that escaped a round. -/
def run_game (scripts : Nat → Script) : Except String (Nat × Nat) :=
  runGameLoop (fun a => (play_one_round_agent (scripts a)).map Prod.fst) 20 0 0

/-! ### Round Controller, data-collection variant (`collect_data.py`) -/

/-- Model of `DataCollector.check_card_color_changed` (collect_data.py): a fixed
delay, then unconditionally `True` — "简化处理，假设点击总是成功". -/
def check_card_color_changed : Bool := true

/-- The tap loop of `collect_data.py::play_one_round`, started at
`collectClickLoop tapOk 0 3` (`max_retry = 3`).  `i` counts taps issued,
`fuel` the remaining iterations.  A failed tap is retried while iterations
remain and fails the round (`none`) on the last one; a successful tap is
checked with `check_card_color_changed`, a positive check returning the
total taps issued, a negative one retrying.  Capture never occurs here, so
nothing can raise. -/
def collectClickLoop (tapOk : Nat → Bool) : Nat → Nat → Option Nat
  | _, 0 => none
  | i, fuel + 1 =>
    if tapOk i then
      if check_card_color_changed then some (i + 1)
      else collectClickLoop tapOk (i + 1) fuel
    else
      if fuel = 0 then none
      else collectClickLoop tapOk (i + 1) fuel

/-- Scripted outcomes of the external calls of one
`collect_data.py::play_one_round` attempt.  `captureFails 0` is the
"question" screenshot, `captureFails 1` the "result" screenshot (both are
wrapped in `try/except` by `capture_and_save`, which returns `None` on
failure); `choice` is `random_choice()`; `tapOk`/`advanceTapOk` as in
`Script`. -/
structure CollectScript where
  captureFails : Nat → Bool
  choice : Nat
  tapOk : Nat → Bool
  advanceTapOk : Bool

/-- Model of `DataCollector.play_one_round` (collect_data.py): `none` when the round
fails (capture failure, tap budget exhausted, or failed advance tap),
otherwise the selected index of the round's metadata record.  No exception
can escape: every fallible call reports failure by value. -/
def play_one_round_collect (s : CollectScript) : Option Nat :=
  if s.captureFails 0 then none
  else
    match collectClickLoop s.tapOk 0 3 with
    | none => none
    | some _ =>
      if s.captureFails 1 then none
      else if s.advanceTapOk then some s.choice else none

/-! ### Episode Controller, data-collection variant (`collect_data.py`) -/

/-- The `while completed_rounds < 10 and attempt_count < max_attempts` loop
of `DataCollector.collect_one_episode`, with `max_attempts = 20`:
`rounds a` is the metadata returned by the round attempted with
`attempt_count = a + 1` (`none` = failed round).  Run as
`collectLoop rounds 20 0 0`; the fuel never truncates the loop, which the
exit condition of the episode-loop invariant proved below makes precise. -/
def collectLoop (rounds : Nat → Option Nat) : Nat → Nat → Nat → Nat × Nat
  | 0, completed, attempts => (completed, attempts)
  | fuel + 1, completed, attempts =>
    if completed < 10 ∧ attempts < 20 then
      match rounds attempts with
      | some _ => collectLoop rounds fuel (completed + 1) (attempts + 1)
      | none => collectLoop rounds fuel completed (attempts + 1)
    else (completed, attempts)

/-- The fields of `episode_metadata` finalized by `collect_one_episode`
that the verified claims are about (round list, timestamps and screenshot
paths elided: they are I/O bookkeeping). -/
structure EpisodeMetadata where
  completed_rounds : Nat
  success : Bool
deriving DecidableEq

/-- Model of `DataCollector.collect_one_episode` (collect_data.py): run the round
loop, then finalize `completed_rounds` and
`success = (completed_rounds == 10)` into the episode record. -/
def collect_one_episode (rounds : Nat → Option Nat) : EpisodeMetadata :=
  let r := collectLoop rounds 20 0 0
  { completed_rounds := r.1, success := r.1 == 10 }

/-! ### Auxiliary definitions for the verified statements -/

/-- The exit-state property of the episode loops, for a final pair
`(completed_rounds, total_attempts)`: completed rounds never exceed the
target 10, attempts never exceed the ceiling 20, completed rounds never
exceed attempts, and the loop stopped exactly because the target was met
or the ceiling consumed. -/
def episodeLoopInv (p : Nat × Nat) : Prop :=
  p.1 ≤ 10 ∧ p.2 ≤ 20 ∧ p.1 ≤ p.2 ∧ (p.1 = 10 ∨ p.2 = 20)

/-- A decision-making round whose every screenshot capture raises. -/
def capFailScript : Script where
  captureFails := fun _ => true
  decision := some 0
  tapOk := fun _ => true
  verifyOk := fun _ => true
  advanceTapOk := true

/-- A decision-making round whose every card tap reports failure; all other
external calls behave well. -/
def tapFailScript : Script where
  captureFails := fun _ => false
  decision := some 0
  tapOk := fun _ => false
  verifyOk := fun _ => true
  advanceTapOk := true

/-- A decision-making round in which click verification is negative exactly
once (for tap attempt 0) and positive afterwards; everything else succeeds. -/
def verAfterOne : Script where
  captureFails := fun _ => false
  decision := some 0
  tapOk := fun _ => true
  verifyOk := fun i => decide (1 ≤ i)
  advanceTapOk := true

/-! ## Helper lemmas -/

/-- The strategy-2 loop only ever returns a value in `0..2`. -/
theorem firstValid_le {s : List Char} :
    ∀ {l : List (List Char → Option Nat)} {n : Nat}, firstValid s l = some n → n ≤ 2 := by
  intro l
  induction l with
  | nil => intro n h; simp [firstValid] at h
  | cons m rest ih =>
    intro n h
    rw [firstValid] at h
    cases hm : scanFirst m s with
    | none =>
      rw [hm] at h
      exact ih h
    | some k =>
      rw [hm] at h
      have h' : (if k ≤ 2 then some k else firstValid s rest) = some n := h
      by_cases hk : k ≤ 2
      · rw [if_pos hk] at h'
        cases h'
        exact hk
      · rw [if_neg hk] at h'
        exact ih h'

/-- A pattern list whose every pattern was exhausted without an in-range
value contributes nothing when further patterns follow. -/
theorem firstValid_append {s : List Char} {l₁ l₂ : List (List Char → Option Nat)}
    (h : firstValid s l₁ = none) :
    firstValid s (l₁ ++ l₂) = firstValid s l₂ := by
  induction l₁ with
  | nil => rfl
  | cons m rest ih =>
    rw [List.cons_append, firstValid]
    rw [firstValid] at h
    cases hm : scanFirst m s with
    | none =>
      rw [hm] at h
      exact ih h
    | some k =>
      rw [hm] at h
      have h' : (if k ≤ 2 then some k else firstValid s rest) = none := h
      show (if k ≤ 2 then some k else firstValid s (rest ++ l₂)) = firstValid s l₂
      by_cases hk : k ≤ 2
      · rw [if_pos hk] at h'; cases h'
      · rw [if_neg hk] at h'
        rw [if_neg hk]
        exact ih h'

/-- Any property of every anchored match transfers to the leftmost match. -/
theorem scanFirst_pred {α : Type} {m : List Char → Option α} {Q : α → Prop}
    (hm : ∀ t x, m t = some x → Q x) :
    ∀ {s : List Char} {x : α}, scanFirst m s = some x → Q x := by
  intro s
  induction s with
  | nil => intro x h; exact hm [] x h
  | cons c t ih =>
    intro x h
    rw [scanFirst] at h
    cases hmc : m (c :: t) with
    | some r =>
      simp only [hmc] at h
      cases h
      exact hm _ _ hmc
    | none =>
      simp only [hmc] at h
      exact ih h

/-- The class `[abc]` under IGNORECASE captures one of six characters. -/
theorem matchLetter_mem : ∀ {s : List Char} {c : Char}, matchLetter s = some c →
    c = 'a' ∨ c = 'b' ∨ c = 'c' ∨ c = 'A' ∨ c = 'B' ∨ c = 'C' := by
  intro s c h
  match s with
  | [] => simp [matchLetter] at h
  | d :: t =>
    rw [matchLetter] at h
    by_cases hd : (d = 'a' || d = 'b' || d = 'c' || d = 'A' || d = 'B' || d = 'C') = true
    · rw [if_pos hd] at h
      cases h
      simp only [Bool.or_eq_true, decide_eq_true_eq] at hd
      tauto
    · rw [if_neg hd] at h
      cases h

/-- The letter captured by the `选项` pattern is one of `a b c A B C`. -/
theorem matchP7letter_mem {s : List Char} {c : Char} (h : matchP7letter s = some c) :
    c = 'a' ∨ c = 'b' ∨ c = 'c' ∨ c = 'A' ∨ c = 'B' ∨ c = 'C' := by
  unfold matchP7letter at h
  cases hl : litCI "选项".data s with
  | none => simp [hl] at h
  | some s' =>
    simp only [hl, Option.bind_eq_bind, Option.some_bind] at h
    exact matchLetter_mem h

/-- The leftmost `选项`-pattern match, mapped to an index, is the leftmost
captured letter mapped through `letterIndex`. -/
theorem scanFirst_matchP7 :
    ∀ s, scanFirst matchP7 s = (scanFirst matchP7letter s).map letterIndex := by
  intro s
  induction s with
  | nil => rfl
  | cons c t ih =>
    simp only [scanFirst]
    cases h : matchP7letter (c :: t) with
    | some x => simp [matchP7, h]
    | none => simp [matchP7, h, ih]

/-- Lemma: `hasPrefixCh` decides "is a prefix of". -/
theorem hasPrefixCh_iff : ∀ (p s : List Char), hasPrefixCh p s = true ↔ ∃ t, p ++ t = s := by
  intro p
  induction p with
  | nil => intro s; simp [hasPrefixCh]
  | cons c p ih =>
    intro s
    cases s with
    | nil => simp [hasPrefixCh]
    | cons d t =>
      constructor
      · intro h
        simp only [hasPrefixCh, Bool.and_eq_true, decide_eq_true_eq] at h
        obtain ⟨hc, hp⟩ := h
        obtain ⟨u, hu⟩ := (ih t).1 hp
        exact ⟨u, by simp [hc, hu]⟩
      · rintro ⟨u, hu⟩
        rw [List.cons_append] at hu
        injection hu with h1 h2
        simp only [hasPrefixCh, Bool.and_eq_true, decide_eq_true_eq]
        exact ⟨h1, (ih t).2 ⟨u, h2⟩⟩

/-- Lemma: `hasSubCh` decides "occurs contiguously in", Python's `in` on strings. -/
theorem hasSubCh_iff : ∀ (p s : List Char), hasSubCh p s = true ↔ ∃ u v, u ++ p ++ v = s := by
  intro p s
  induction s with
  | nil =>
    constructor
    · intro h
      have hp : p = [] := by simpa [hasSubCh, List.isEmpty_iff] using h
      exact ⟨[], [], by simp [hp]⟩
    · rintro ⟨u, v, huv⟩
      rw [List.append_assoc] at huv
      rcases List.append_eq_nil.1 huv with ⟨hu, hpv⟩
      rcases List.append_eq_nil.1 hpv with ⟨hp, hv⟩
      simp [hasSubCh, hp]
  | cons c t ih =>
    constructor
    · intro h
      simp only [hasSubCh, Bool.or_eq_true] at h
      rcases h with h | h
      · obtain ⟨w, hw⟩ := (hasPrefixCh_iff p (c :: t)).1 h
        exact ⟨[], w, by simp [hw]⟩
      · obtain ⟨u, v, huv⟩ := ih.1 h
        exact ⟨c :: u, v, by simp [huv]⟩
    · rintro ⟨u, v, huv⟩
      rw [hasSubCh, Bool.or_eq_true]
      cases u with
      | nil =>
        exact Or.inl ((hasPrefixCh_iff p (c :: t)).2 ⟨v, by simpa using huv⟩)
      | cons d u =>
        simp only [List.cons_append, List.append_assoc] at huv
        injection huv with h1 h2
        exact Or.inr (ih.2 ⟨u, v, by simp [h2]⟩)

/-- Exit-state invariant of the data-collection episode loop, generalized
over the loop state: fuel plus the attempt count stays 20, so the loop stops
exactly at the target or the ceiling and the counters stay bounded. -/
theorem collectLoop_inv (rounds : Nat → Option Nat) :
    ∀ fuel c a, c ≤ 10 → c ≤ a → a + fuel = 20 →
      episodeLoopInv (collectLoop rounds fuel c a) := by
  intro fuel
  induction fuel with
  | zero =>
    intro c a h1 h2 h3
    show c ≤ 10 ∧ a ≤ 20 ∧ c ≤ a ∧ (c = 10 ∨ a = 20)
    omega
  | succ fuel ih =>
    intro c a h1 h2 h3
    rw [collectLoop]
    by_cases hg : c < 10 ∧ a < 20
    · rw [if_pos hg]
      cases hr : rounds a with
      | some v =>
        exact ih (c + 1) (a + 1) (by omega) (by omega) (by omega)
      | none =>
        exact ih c (a + 1) (by omega) (by omega) (by omega)
    · rw [if_neg hg]
      show c ≤ 10 ∧ a ≤ 20 ∧ c ≤ a ∧ (c = 10 ∨ a = 20)
      omega

/-- Exit-state invariant of the decision-making episode loop on every run
that returns normally (no escaped exception). -/
theorem runGameLoop_ok_inv (rounds : Nat → Except String Bool) :
    ∀ fuel c a, c ≤ 10 → c ≤ a → a + fuel = 20 →
      ∀ c' a', runGameLoop rounds fuel c a = .ok (c', a') → episodeLoopInv (c', a') := by
  intro fuel
  induction fuel with
  | zero =>
    intro c a h1 h2 h3 c' a' h
    rw [runGameLoop] at h
    simp only [Except.ok.injEq, Prod.mk.injEq] at h
    obtain ⟨rfl, rfl⟩ := h
    show c ≤ 10 ∧ a ≤ 20 ∧ c ≤ a ∧ (c = 10 ∨ a = 20)
    omega
  | succ fuel ih =>
    intro c a h1 h2 h3 c' a' h
    rw [runGameLoop] at h
    by_cases hg : c < 10 ∧ a < 20
    · rw [if_pos hg] at h
      cases hr : rounds a with
      | error e =>
        rw [hr] at h
        cases h
      | ok b =>
        rw [hr] at h
        cases b
        · exact ih c (a + 1) (by omega) (by omega) (by omega) c' a' h
        · exact ih (c + 1) (a + 1) (by omega) (by omega) (by omega) c' a' h
    · rw [if_neg hg] at h
      simp only [Except.ok.injEq, Prod.mk.injEq] at h
      obtain ⟨rfl, rfl⟩ := h
      show c ≤ 10 ∧ a ≤ 20 ∧ c ≤ a ∧ (c = 10 ∨ a = 20)
      omega

/-- A failed round inside the guard consumes one attempt and nothing else. -/
theorem collectLoop_failed_step (rounds : Nat → Option Nat) (fuel c a : Nat)
    (hc : c < 10) (ha : a < 20) (h : rounds a = none) :
    collectLoop rounds (fuel + 1) c a = collectLoop rounds fuel c (a + 1) := by
  rw [collectLoop, if_pos ⟨hc, ha⟩, h]

/-- A successful round inside the guard consumes one attempt and one round
slot. -/
theorem collectLoop_success_step (rounds : Nat → Option Nat) (fuel c a v : Nat)
    (hc : c < 10) (ha : a < 20) (h : rounds a = some v) :
    collectLoop rounds (fuel + 1) c a = collectLoop rounds fuel (c + 1) (a + 1) := by
  rw [collectLoop, if_pos ⟨hc, ha⟩, h]

/-- Full unfolding of the three iterations of the decision-making tap loop. -/
theorem clickLoop_three (s : Script) :
    clickLoop s 0 3 =
      if s.tapOk 0 then
        if s.captureFails 1 then .error "截图失败"
        else if s.verifyOk 0 then .ok (.verified 1)
        else if s.tapOk 1 then
          if s.captureFails 2 then .error "截图失败"
          else if s.verifyOk 1 then .ok (.verified 2)
          else if s.tapOk 2 then
            if s.captureFails 3 then .error "截图失败"
            else if s.verifyOk 2 then .ok (.verified 3)
            else .ok (.exhausted 3)
          else .ok (.tapFailed 3)
        else .ok (.tapFailed 2)
      else .ok (.tapFailed 1) := rfl

/-- Full unfolding of the three iterations of the data-collection tap loop:
with `check_card_color_changed` constantly true, the first successful tap
ends the loop. -/
theorem collectClickLoop_three (tapOk : Nat → Bool) :
    collectClickLoop tapOk 0 3 =
      if tapOk 0 then some 1
      else if tapOk 1 then some 2
      else if tapOk 2 then some 3
      else none := rfl

/-! ## Claim theorems -/

/-- C1: for every input string, `parse_vlm_response` returns either no
decision (`none`) or an integer in `{0, 1, 2}`, never a value outside that
domain; in particular the empty string — what the model client returns on
transport or non-2xx failure — parses to no decision. -/
theorem parse_vlm_response_domain :
    (∀ (r : String) (n : Nat), parse_vlm_response r = some n → n = 0 ∨ n = 1 ∨ n = 2) ∧
      parse_vlm_response "" = none := by
  constructor
  · intro r n h
    rw [parse_vlm_response] at h
    have key : n ≤ 2 := by
      cases hs : scanFirst matchS1 r.data with
      | none =>
        rw [hs] at h
        exact firstValid_le h
      | some k =>
        rw [hs] at h
        have h' : (if k ≤ 2 then some k else firstValid r.data strat2) = some n := h
        by_cases hk : k ≤ 2
        · rw [if_pos hk] at h'
          cases h'
          exact hk
        · rw [if_neg hk] at h'
          exact firstValid_le h'
    omega
  · rfl

/-- Witness for C1 at concrete inputs. -/
theorem parse_vlm_response_domain_witness :
    parse_vlm_response "<action>select(2)</action>" = some 2 ∧
      ((2 : Nat) = 0 ∨ (2 : Nat) = 1 ∨ (2 : Nat) = 2) ∧ parse_vlm_response "" = none :=
  ⟨by decide,
    parse_vlm_response_domain.1 "<action>select(2)</action>" 2 (by decide),
    parse_vlm_response_domain.2⟩

/-- C5 counterexample: a text that contains the tagged directive
`<action>select(1)</action>` with value 1 ∈ {0,1,2}, yet parses to no
decision — because an earlier out-of-range directive is the first match of
strategy 1 and the parser only considers the first match. -/
theorem tagged_directive_not_always_returned :
    parse_vlm_response "<action>select(5)</action><action>select(1)</action>" = none ∧
      hasSubCh "<action>select(1)</action>".data
        "<action>select(5)</action><action>select(1)</action>".data = true := by
  constructor
  · decide
  · decide

/-- C5 (amended): for every text whose first (leftmost) match of the tagged
directive `<action>select(N)</action>` captures a value N in `{0, 1, 2}`,
`parse_vlm_response` returns N, regardless of surrounding text. -/
theorem first_tagged_directive_in_range_wins (r : String) (n : Nat)
    (h1 : scanFirst matchS1 r.data = some n) (h2 : n ≤ 2) :
    parse_vlm_response r = some n := by
  rw [parse_vlm_response, h1]
  show (if n ≤ 2 then some n else firstValid r.data strat2) = some n
  rw [if_pos h2]

/-- Witness for C5's amended theorem at a concrete input. -/
theorem first_tagged_directive_in_range_wins_witness :
    parse_vlm_response "noise <ACTION>Select(0)</ACTION> tail" = some 0 :=
  first_tagged_directive_in_range_wins "noise <ACTION>Select(0)</ACTION> tail" 0
    (by decide) (by decide)

/-- C8 counterexample: a text in which the recognized letter-label pattern
`选项\s*([abc])` matches the label `a` (which maps to 0), yet the parser
returns 2 — an earlier pattern of the ordered rule list wins. -/
theorem letter_label_not_always_returned :
    parse_vlm_response "索引: 2 选项 a" = some 2 ∧
      scanFirst matchP7letter "索引: 2 选项 a".data = some 'a' ∧
      letterIndex 'a' = 0 := by
  refine ⟨by decide, by decide, by decide⟩

/-- C8 (amended): when the letter rule is the first rule to yield a valid
value — strategy 1's first match (if any) is out of range and the six
earlier strategy-2 patterns yield no in-range value — a matched letter
label is returned mapped via its ordinal position in the alphabet:
`a ↦ 0`, `b ↦ 1`, `c ↦ 2`. -/
theorem letter_label_maps_by_alphabet_position (r : String) (c : Char)
    (h1 : (scanFirst matchS1 r.data).all (fun n => decide (2 < n)) = true)
    (h2 : firstValid r.data [matchP1, matchP2, matchP3, matchP4, matchP5, matchP6] = none)
    (h3 : scanFirst matchP7letter r.data = some c) :
    parse_vlm_response r = some (letterIndex c) ∧
      letterIndex 'a' = 0 ∧ letterIndex 'b' = 1 ∧ letterIndex 'c' = 2 := by
  have hc : c = 'a' ∨ c = 'b' ∨ c = 'c' ∨ c = 'A' ∨ c = 'B' ∨ c = 'C' :=
    scanFirst_pred (fun t x hx => matchP7letter_mem hx) h3
  have hle : letterIndex c ≤ 2 := by
    rcases hc with h | h | h | h | h | h <;> subst h <;> decide
  have hP7 : scanFirst matchP7 r.data = some (letterIndex c) := by
    rw [scanFirst_matchP7, h3]
    rfl
  have htail : firstValid r.data strat2 = some (letterIndex c) := by
    have hsplit :
        strat2 = [matchP1, matchP2, matchP3, matchP4, matchP5, matchP6] ++ [matchP7] := rfl
    rw [hsplit, firstValid_append h2, firstValid, hP7]
    show (if letterIndex c ≤ 2 then some (letterIndex c) else firstValid r.data []) =
      some (letterIndex c)
    rw [if_pos hle]
  refine ⟨?_, rfl, rfl, rfl⟩
  rw [parse_vlm_response]
  cases hs : scanFirst matchS1 r.data with
  | none => exact htail
  | some n =>
    rw [hs] at h1
    have hn : 2 < n := by simpa using h1
    show (if n ≤ 2 then some n else firstValid r.data strat2) = some (letterIndex c)
    rw [if_neg (by omega), htail]

/-- Witness for C8's amended theorem at a concrete input. -/
theorem letter_label_maps_by_alphabet_position_witness :
    parse_vlm_response "选项 b" = some 1 ∧ letterIndex 'b' = 1 := by
  have h := letter_label_maps_by_alphabet_position "选项 b" 'b'
    (by decide) (by decide) (by decide)
  exact ⟨h.1.trans (by decide), h.2.2.1⟩

/-- C10: `check_click_success` classifies the click as successful exactly
when the model's reply contains `是`, or `成功`, or `改变`, or
(case-insensitively) `yes`; consequently a negated reply that still contains
such a substring, such as `不是` or `没有改变`, is classified successful. -/
theorem check_click_success_iff_keyword :
    (∀ r : String, check_click_success r = true ↔
      ((∃ u v, u ++ "是".data ++ v = r.data) ∨
        (∃ u v, u ++ "yes".data ++ v = lowerCh r.data) ∨
        (∃ u v, u ++ "成功".data ++ v = r.data) ∨
        (∃ u v, u ++ "改变".data ++ v = r.data))) ∧
      check_click_success "不是" = true ∧ check_click_success "没有改变" = true := by
  refine ⟨fun r => ?_, by decide, by decide⟩
  rw [check_click_success]
  simp only [Bool.or_eq_true, hasSubCh_iff, or_assoc]

/-- Witness for C10 at a concrete input. -/
theorem check_click_success_iff_keyword_witness :
    check_click_success "YES!" = true :=
  (check_click_success_iff_keyword.1 "YES!").2
    (Or.inr (Or.inl ⟨[], "!".data, by decide⟩))

/-- C2: the episode loop always terminates (both loop models are total
functions), attempting rounds until 10 successful rounds or 20 total
attempts, whichever comes first: at exit, completed rounds ≤ 10, total
attempts ≤ 20, completed rounds ≤ total attempts, and the loop stopped
exactly at the target or the ceiling; a failed round increments only the
attempt count and a successful round increments both. -/
theorem episode_loop_bounds :
    (∀ rounds : Nat → Option Nat, episodeLoopInv (collectLoop rounds 20 0 0)) ∧
      (∀ (rounds : Nat → Except String Bool) (c a : Nat),
        runGameLoop rounds 20 0 0 = .ok (c, a) → episodeLoopInv (c, a)) ∧
      (∀ (rounds : Nat → Option Nat) (fuel c a : Nat), c < 10 → a < 20 →
        rounds a = none →
        collectLoop rounds (fuel + 1) c a = collectLoop rounds fuel c (a + 1)) ∧
      (∀ (rounds : Nat → Option Nat) (fuel c a v : Nat), c < 10 → a < 20 →
        rounds a = some v →
        collectLoop rounds (fuel + 1) c a = collectLoop rounds fuel (c + 1) (a + 1)) :=
  ⟨fun rounds => collectLoop_inv rounds 20 0 0 (by omega) (by omega) (by omega),
    fun rounds c a h =>
      runGameLoop_ok_inv rounds 20 0 0 (by omega) (by omega) (by omega) c a h,
    collectLoop_failed_step, collectLoop_success_step⟩

/-- Witness for C2 at concrete round scripts. -/
theorem episode_loop_bounds_witness :
    collectLoop (fun _ => some 0) 20 0 0 = (10, 10) ∧
      episodeLoopInv (collectLoop (fun _ => some 0) 20 0 0) ∧
      episodeLoopInv (0, 20) ∧
      collectLoop (fun _ => none) 1 0 0 = collectLoop (fun _ => none) 0 0 1 ∧
      collectLoop (fun _ => some 7) 1 0 0 = collectLoop (fun _ => some 7) 0 1 1 :=
  ⟨by decide,
    episode_loop_bounds.1 (fun _ => some 0),
    episode_loop_bounds.2.1 (fun _ => Except.ok false) 0 20 rfl,
    episode_loop_bounds.2.2.1 (fun _ => none) 0 0 0 (by omega) (by omega) rfl,
    episode_loop_bounds.2.2.2 (fun _ => some 7) 0 0 0 7 (by omega) (by omega) rfl⟩

/-- C6: for every finalized episode record of the data-collection variant,
the success flag is true exactly when the completed-round count recorded in
the same record equals the target round count of 10. -/
theorem episode_success_iff_ten_rounds (rounds : Nat → Option Nat) :
    (collect_one_episode rounds).success = true ↔
      (collect_one_episode rounds).completed_rounds = 10 := by
  simp [collect_one_episode]

/-- Witness for C6 at a concrete round script. -/
theorem episode_success_iff_ten_rounds_witness :
    (collect_one_episode (fun _ => some 0)).completed_rounds = 10 ∧
      (collect_one_episode (fun _ => some 0)).success = true :=
  ⟨by decide, (episode_success_iff_ten_rounds (fun _ => some 0)).2 (by decide)⟩

/-- C3 counterexample: in the decision-making variant, a screenshot-capture
failure does not merely fail the current round — the `RuntimeError` raised
by `capture_screenshot` escapes `play_one_round` and the `run_game` episode
loop, reaching the caller as an exception. -/
theorem capture_failure_escapes_run_game :
    run_game (fun _ => capFailScript) = .error "截图失败" := rfl

/-- C3 (amended): in the data-collection variant, a screenshot-capture
failure fails only the current round (the round returns no record and no
exception escapes) and the episode loop consumes one attempt and continues;
in the decision-making variant, a capture failure in the first attempted
round raises out of the episode loop to its caller. -/
theorem capture_failure_round_policy :
    (∀ s : CollectScript, s.captureFails 0 = true → play_one_round_collect s = none) ∧
      (∀ (rounds : Nat → Option Nat) (fuel c a : Nat), c < 10 → a < 20 →
        rounds a = none →
        collectLoop rounds (fuel + 1) c a = collectLoop rounds fuel c (a + 1)) ∧
      (∀ scripts : Nat → Script, (scripts 0).captureFails 0 = true →
        run_game scripts = .error "截图失败") := by
  refine ⟨fun s h => ?_, collectLoop_failed_step, fun scripts h => ?_⟩
  · rw [play_one_round_collect, if_pos h]
  · have hround : (play_one_round_agent (scripts 0)).map Prod.fst = .error "截图失败" := by
      rw [play_one_round_agent, if_pos h]
      rfl
    rw [run_game]
    have h20 : (20 : Nat) = 19 + 1 := rfl
    rw [h20, runGameLoop, if_pos (by omega : (0 : Nat) < 10 ∧ (0 : Nat) < 20)]
    simp only [hround]

/-- Witness for C3's amended theorem at concrete scripts. -/
theorem capture_failure_round_policy_witness :
    play_one_round_collect ⟨fun _ => true, 0, fun _ => true, true⟩ = none ∧
      collectLoop (fun _ => none) 3 0 0 = collectLoop (fun _ => none) 2 0 1 ∧
      run_game (fun _ => capFailScript) = Except.error "截图失败" :=
  ⟨capture_failure_round_policy.1 ⟨fun _ => true, 0, fun _ => true, true⟩ rfl,
    capture_failure_round_policy.2.1 (fun _ => none) 2 0 0 (by omega) (by omega) rfl,
    capture_failure_round_policy.2.2 (fun _ => capFailScript) rfl⟩

/-- C4: in the decision-making round controller, when every card tap and
the advance tap succeed and every capture succeeds, and click verification
is negative exactly `k` times before turning positive: for `k < 3` the
round completes with exactly `k + 1` card-tap attempts issued, and for
`k ≥ 3` the round fails after the retry loop issues exactly 3 tap
attempts. -/
theorem click_verification_retry_budget (s : Script) (k d : Nat)
    (hcap : ∀ i, s.captureFails i = false)
    (hdec : s.decision = some d)
    (htap : ∀ i, s.tapOk i = true)
    (hadv : s.advanceTapOk = true)
    (hver : ∀ i, i < k → s.verifyOk i = false) (hverk : s.verifyOk k = true) :
    (k < 3 → play_one_round_agent s = .ok (true, k + 1)) ∧
      (3 ≤ k → play_one_round_agent s = .ok (false, 3)) := by
  have hcl := clickLoop_three s
  rw [htap 0, htap 1, htap 2, hcap 1, hcap 2, hcap 3] at hcl
  simp only [if_true, Bool.false_eq_true, if_false] at hcl
  constructor
  · intro hk
    interval_cases k
    · rw [hverk] at hcl
      simp only [if_true] at hcl
      simp [play_one_round_agent, hcap 0, hdec, hcl, hadv]
    · rw [hver 0 (by omega), hverk] at hcl
      simp only [if_true, Bool.false_eq_true, if_false] at hcl
      simp [play_one_round_agent, hcap 0, hdec, hcl, hadv]
    · rw [hver 0 (by omega), hver 1 (by omega), hverk] at hcl
      simp only [if_true, Bool.false_eq_true, if_false] at hcl
      simp [play_one_round_agent, hcap 0, hdec, hcl, hadv]
  · intro hk
    rw [hver 0 (by omega), hver 1 (by omega), hver 2 (by omega)] at hcl
    simp only [Bool.false_eq_true, if_false] at hcl
    simp [play_one_round_agent, hcap 0, hdec, hcl]

/-- Witness for C4 with verification failing exactly once (`k = 1`). -/
theorem click_verification_retry_budget_witness :
    play_one_round_agent verAfterOne = .ok (true, 2) := by
  have h := click_verification_retry_budget verAfterOne 1 0
    (fun _ => rfl) rfl (fun _ => rfl) rfl
    (fun i hi => by
      have hi0 : i = 0 := by omega
      subst hi0
      rfl)
    rfl
  exact h.1 (by omega)

/-- C7 counterexample: in the decision-making variant, a failed card-tap
command is not retried — the round fails immediately after a single tap
attempt, with the 3-attempt retry budget untouched. -/
theorem agent_tap_failure_not_retried :
    play_one_round_agent tapFailScript = .ok (false, 1) ∧ (1 : Nat) < 3 :=
  ⟨rfl, by omega⟩

/-- C7 (amended): in the data-collection variant, a failed card-tap command
is retried within the round's retry budget of 3 attempts (the round
proceeds after `k < 3` failed taps once a tap succeeds, and fails for this
reason only after all 3 attempts fail); in the decision-making variant a
single failed card-tap fails the round immediately, without retry. -/
theorem tap_failure_retry_policy :
    (∀ (tapOk : Nat → Bool) (k : Nat), k < 3 → (∀ i, i < k → tapOk i = false) →
      tapOk k = true → collectClickLoop tapOk 0 3 = some (k + 1)) ∧
      (∀ tapOk : Nat → Bool, (∀ i, i < 3 → tapOk i = false) →
        collectClickLoop tapOk 0 3 = none) ∧
      (∀ (s : Script) (d : Nat), s.captureFails 0 = false → s.decision = some d →
        s.tapOk 0 = false → play_one_round_agent s = .ok (false, 1)) := by
  refine ⟨fun tapOk k hk hfail hk1 => ?_, fun tapOk hfail => ?_, fun s d h1 h2 h3 => ?_⟩
  · interval_cases k
    · simp [collectClickLoop_three, hk1]
    · simp [collectClickLoop_three, hfail 0 (by omega), hk1]
    · simp [collectClickLoop_three, hfail 0 (by omega), hfail 1 (by omega), hk1]
  · simp [collectClickLoop_three, hfail 0 (by omega), hfail 1 (by omega),
      hfail 2 (by omega)]
  · have hcl := clickLoop_three s
    rw [h3] at hcl
    simp only [Bool.false_eq_true, if_false] at hcl
    simp [play_one_round_agent, h1, h2, hcl]

/-- Witness for C7's amended theorem at concrete scripts. -/
theorem tap_failure_retry_policy_witness :
    collectClickLoop (fun i => decide (1 ≤ i)) 0 3 = some 2 ∧
      collectClickLoop (fun _ => false) 0 3 = none ∧
      play_one_round_agent tapFailScript = .ok (false, 1) :=
  ⟨tap_failure_retry_policy.1 (fun i => decide (1 ≤ i)) 1 (by omega)
      (fun i hi => by
        have hi0 : i = 0 := by omega
        subst hi0
        rfl)
      rfl,
    tap_failure_retry_policy.2.1 (fun _ => false) (fun i _ => rfl),
    tap_failure_retry_policy.2.2 tapFailScript 0 rfl rfl rfl⟩

/-- C9: in the data-collection variant the click-verification check is a
fixed delay that returns true on every call, so the "click did not take
effect" retry branch of the round's tap loop is unreachable: whenever the
first card-tap command succeeds, exactly one card tap is issued in that
round. -/
theorem collect_verification_always_true :
    check_card_color_changed = true ∧
      (∀ tapOk : Nat → Bool, tapOk 0 = true → collectClickLoop tapOk 0 3 = some 1) := by
  refine ⟨rfl, fun tapOk h => ?_⟩
  simp [collectClickLoop_three, h]

/-- Witness for C9 at a concrete tap script. -/
theorem collect_verification_always_true_witness :
    collectClickLoop (fun _ => true) 0 3 = some 1 :=
  collect_verification_always_true.2 (fun _ => true) rfl

end AndroidGuiCookbook
